import Mathlib

/-!
# Verification of the `create-access-list-bug` demo script

A shallow embedding of `src/demo.ts` (a diagnostic script exercising the
`eth_createAccessList` JSON-RPC method through the viem client library),
together with the viem library functions the script's behaviour depends on
(`parseUnits`, `encodeFunctionData` specialised to the ERC-20 `transfer`
ABI item, and the `http` transport's URL defaulting), and proofs of the
specification's claims about it.

Conventions of the embedding:
* addresses and transaction hashes are `Nat` (the script's literal addresses
  are 160-bit values, in range for the encoders);
* byte strings (ABI call data) are `List Nat`, each element `< 256`;
* JavaScript `bigint` values are `Int`;
* a JavaScript `throw` / rejected promise is an `Except.error`;
* the RPC provider is a pure response mapping (`Transport`), one field per
  distinct RPC call shape the script issues.
-/

/-- Ethereum address, as an unsigned 160-bit number. -/
abbrev Address := Nat

/-- A JSON-RPC error object, as surfaced by viem (`code` + `message`). -/
structure RpcError where
  code : Int
  message : String
deriving DecidableEq, Repr

/-- A transaction receipt (`waitForTransactionReceipt` result): status,
gas used, block number. -/
structure Receipt where
  status : Bool
  gasUsed : Nat
  blockNumber : Nat
deriving DecidableEq, Repr

/-- Result of a successful `eth_createAccessList`: the access list
(address / storage-key pairs) plus the reported gas estimate. -/
structure AccessListResult where
  accessList : List (Address × List Nat)
  gasUsed : Nat
deriving DecidableEq, Repr

/-! ## Chain metadata (`viem/chains` entries used by the script) -/

/-- The two networks selectable via `--chain` (`CHAINS_BY_NAME`). -/
inductive ChainName
  | base
  | celo
deriving DecidableEq, Repr

/-- `chain.id` from the viem chain definitions. -/
def chainId : ChainName → Nat
  | .base => 8453
  | .celo => 42220

/-- `chain.nativeCurrency.symbol` from the viem chain definitions. -/
def nativeCurrencySymbol : ChainName → String
  | .base => "ETH"
  | .celo => "CELO"

/-- `chain.rpcUrls.default.http[0]` from the viem chain definitions: the
endpoint viem's `http()` transport falls back to when no URL is given. -/
def chainDefaultUrl : ChainName → String
  | .base => "https://mainnet.base.org"
  | .celo => "https://forno.celo.org"

/-- `TOKEN_ADDRESS_BY_CHAIN` (demo.ts lines 24-27): the USDC contract
address for each chain. -/
def tokenAddress : ChainName → Address
  | .base => 0x833589fcd6edb6e08f4c7c32d4f71b54bda02913
  | .celo => 0xceba9300f2b948710d2653dd7b07f33a8b32118c

/-- `FALLBACK_ADDRESS` (demo.ts line 76), used in read-only mode. -/
def FALLBACK_ADDRESS : Address := 0xe30E59040385cfa09e5C61241C20f0673F314C98

/-! ## RPC URL resolution and transport construction (demo.ts lines 78-95)

The script computes `rpcUrl` from the `--rpc-url` flag with the chain's
environment variable as fallback (JavaScript truthiness: both `undefined`
and the empty string are falsy), then passes it to viem's `http(rpcUrl)`.
Inside viem, the transport's effective URL is
`url || chain.rpcUrls.default.http[0]`, and `UrlRequiredError` is thrown
only when that expression is still falsy.  No URL parsing or validation
happens at construction time. -/

/-- JavaScript truthiness of an optional string: `undefined` and `""` are
falsy, every other string is truthy. -/
def jsTruthy : Option String → Bool
  | none => false
  | some s => !(s == "")

/-- demo.ts lines 79-83: `let rpcUrl = customRpcUrl; if (!rpcUrl) rpcUrl =
process.env[rpcEnvVar];`. -/
def resolveRpcUrl (customRpcUrl envRpcUrl : Option String) : Option String :=
  if jsTruthy customRpcUrl then customRpcUrl else envRpcUrl

/-- viem `UrlRequiredError` (the only configuration failure possible when
building the `http` transport with a chain attached). -/
structure UrlRequiredError deriving DecidableEq, Repr

/-- The effective URL of viem's `http(rpcUrl)` transport once attached to a
client carrying `chain`: `url_ = url || chain.rpcUrls.default.http[0]`,
failing with `UrlRequiredError` iff `url_` is still falsy. -/
def httpTransportUrl (rpcUrl : Option String) (chainDefault : String) :
    Except UrlRequiredError String :=
  let u := if jsTruthy rpcUrl then rpcUrl.getD "" else chainDefault
  if u == "" then .error ⟨⟩ else .ok u

/-! ## viem `parseUnits` (demo.ts line 170 calls `parseUnits("0.01", tokenDecimals)`)

Faithful translation of viem's `parseUnits(value, decimals)`:
validate the string against `^(-?)([0-9]*)\.?([0-9]*)$` (throwing
`InvalidDecimalNumberError` otherwise, modelled as `none`), split at the
dot, trim trailing zeros of the fraction, round off when the fraction is
longer than `decimals`, pad otherwise, and read the concatenation as a
big integer.  JavaScript's `Math.round(Number("u.right"))` is modelled as
exact half-up rounding: round up iff the dropped digits start with a digit
`≥ '5'` (the float detour in JS can differ only when `right` needs more
than about 17 significant digits, which no input in this development
approaches). -/

/-- JavaScript `BigInt(s)` on a string of decimal digits (possibly with
leading zeros, possibly empty: `BigInt("") = 0n`). -/
def digitsVal (s : List Char) : Nat :=
  s.foldl (fun acc c => acc * 10 + (c.toNat - '0'.toNat)) 0

/-- `fraction.replace(/(0+)$/, '')`: drop trailing `'0'` characters. -/
def trimTrailingZeros (s : List Char) : List Char :=
  (s.reverse.dropWhile (fun c => c = '0')).reverse

/-- `s.padEnd(n, '0')`. -/
def padEndZeros (s : List Char) (n : Nat) : List Char :=
  s ++ List.replicate (n - s.length) '0'

/-- `s.padStart(n, '0')`. -/
def padStartZeros (s : List Char) (n : Nat) : List Char :=
  List.replicate (n - s.length) '0' ++ s

/-- The viem validation regex `^(-?)([0-9]*)\.?([0-9]*)$`. -/
def isValidDecimalNumber (value : String) : Bool :=
  let chars := value.toList
  let rest := if chars.head? = some '-' then chars.tail else chars
  let afterInt := rest.dropWhile Char.isDigit
  match afterInt with
  | [] => true
  | '.' :: frac => frac.all Char.isDigit
  | _ => false

/-- Exact half-up rounding decision for `Math.round(Number(prefixDigit ++
"." ++ dropped))`: the dropped digit string contributes a carry iff it
starts with a digit `≥ '5'` (an empty string is `NaN` in JS and never
carries). -/
def roundsUp (dropped : List Char) : Bool :=
  match dropped.head? with
  | some c => '5' ≤ c
  | none => false

/-- Core of viem `parseUnits` on the character list of a already-validated
decimal string (at most one `'.'`, digits and an optional leading `'-'`). -/
def parseUnitsCore (chars : List Char) (decimals : Nat) : Int :=
  -- `let [integer, fraction = '0'] = value.split('.')`
  let integer0 := chars.takeWhile (fun c => c ≠ '.')
  let rest := chars.dropWhile (fun c => c ≠ '.')
  -- no dot at all: the destructuring default `fraction = '0'` applies
  let fraction0 := match rest with
    | [] => ['0']
    | _ :: tl => tl
  let negative := integer0.head? = some '-'
  let integer1 := if negative then integer0.tail else integer0
  let fraction1 := trimTrailingZeros fraction0
  let (integer2, fraction2) : List Char × List Char :=
    if decimals = 0 then
      -- `if (Math.round(Number(`.${fraction}`)) === 1) integer = integer + 1`
      (if roundsUp fraction1 then Nat.toDigits 10 (digitsVal integer1 + 1)
       else integer1, [])
    else if fraction1.length > decimals then
      let left := fraction1.take (decimals - 1)
      let unit := (fraction1.drop (decimals - 1)).take 1
      let right := fraction1.drop decimals
      let rounded := digitsVal unit + (if roundsUp right then 1 else 0)
      let fractionA :=
        if rounded > 9 then
          padStartZeros (Nat.toDigits 10 (digitsVal left + 1) ++ ['0'])
            (left.length + 1)
        else left ++ Nat.toDigits 10 rounded
      let (integerB, fractionB) :=
        if fractionA.length > decimals then
          (Nat.toDigits 10 (digitsVal integer1 + 1), fractionA.tail)
        else (integer1, fractionA)
      (integerB, fractionB.take decimals)
    else
      (integer1, padEndZeros fraction1 decimals)
  let magnitude : Int := (digitsVal (integer2 ++ fraction2) : Int)
  if negative then -magnitude else magnitude

/-- viem `parseUnits(value, decimals)`: `none` models the thrown
`InvalidDecimalNumberError`. -/
def parseUnits (value : String) (decimals : Nat) : Option Int :=
  if isValidDecimalNumber value then some (parseUnitsCore value.toList decimals)
  else none

/-! ## ABI encoding of the ERC-20 `transfer(address,uint256)` call

viem's `encodeFunctionData({abi: erc20Abi, functionName: "transfer",
args: [to, amount]})` produces the 4-byte selector `0xa9059cbb` followed by
the two arguments, each left-padded to 32 bytes (big-endian).  viem throws
`IntegerOutOfRangeError` when the `uint256` argument is outside
`[0, 2^256)`; the script's flow models that check before the encoder is
used (see `runMain`). -/

/-- Big-endian byte string of `n % 256^w`, exactly `w` bytes. -/
def beBytes : Nat → Nat → List Nat
  | 0, _ => []
  | w + 1, n => beBytes w (n / 256) ++ [n % 256]

/-- `keccak256("transfer(address,uint256)")[0:4] = 0xa9059cbb` (matches the
raw request data documented in the repository README). -/
def transferSelector : List Nat := [0xa9, 0x05, 0x9c, 0xbb]

/-- `encodeFunctionData` specialised to the ERC-20 `transfer` ABI item. -/
def encodeTransferData (recipient : Address) (amount : Nat) : List Nat :=
  transferSelector ++ beBytes 32 recipient ++ beBytes 32 amount

example : parseUnits "0.01" 6 = some 10000 := by decide

example :
    encodeTransferData FALLBACK_ADDRESS 10000 =
      transferSelector ++ beBytes 32 FALLBACK_ADDRESS ++ beBytes 32 10000 := rfl

/-! ## The script's main flow (demo.ts lines 101-213)

The async IIFE after configuration resolution.  `Config` carries what the
module-level code produced: the chain selection and the account derived
from `MNEMONIC` (`mnemonicToAccount(MNEMONIC)` is cryptographic key
derivation; the model carries the resulting address, present iff a
mnemonic was set — `isUsingFallback = !MNEMONIC`, demo.ts lines 88-89).
`Transport` is the provider as a pure response mapping, one field per RPC
call shape the script issues; an `Except.error` field value is a rejected
promise, which the script never catches (there is no try/catch in the
file), so it aborts the run.  `runMain` returns the list of RPC steps
issued, in order, together with the final outcome. -/

/-- The call passed to `publicClient.simulateContract` (demo.ts lines
162-172), with its ABI-encoded call data as the node sees it. -/
structure SimCall where
  account : Address
  /-- the JSON `to` field (`to` is a reserved token in Lean) -/
  toAddr : Address
  data : List Nat
deriving DecidableEq, Repr

/-- The `request` object returned by a successful `simulateContract`:
the ready-to-send contract write (address, function, args, account). -/
structure Request where
  address : Address
  functionName : String
  recipient : Address
  amount : Nat
  account : Address
deriving DecidableEq, Repr

/-- The call passed to `publicClient.createAccessList` (demo.ts lines
177-186). -/
structure AccessListCall where
  account : Address
  /-- the JSON `to` field (`to` is a reserved token in Lean) -/
  toAddr : Address
  data : List Nat
  value : Int
deriving DecidableEq, Repr

/-- The call passed to `walletClient.writeContract` (demo.ts lines
203-206): the simulated request spread together with the signing account. -/
structure WriteCall where
  address : Address
  functionName : String
  recipient : Address
  amount : Nat
  signer : Address
deriving DecidableEq, Repr

/-- Module-level configuration the IIFE closes over. -/
structure Config where
  chain : ChainName
  /-- `mnemonicToAccount(MNEMONIC)` when `MNEMONIC` is set (truthy),
  `null` otherwise; `isUsingFallback` is its absence. -/
  mnemonicAccount : Option Address
deriving DecidableEq, Repr

/-- demo.ts line 91: `account?.address || FALLBACK_ADDRESS`. -/
def accountAddress (cfg : Config) : Address :=
  cfg.mnemonicAccount.getD FALLBACK_ADDRESS

/-- The provider, as a pure mapping from each RPC call the script issues to
its response; `Except.error` is a rejected promise. -/
structure Transport where
  getBalance : Address → Except RpcError Int
  readSymbol : Address → Except RpcError String
  readDecimals : Address → Except RpcError Nat
  readBalanceOf : Address → Address → Except RpcError Int
  simulateContract : SimCall → Except RpcError Unit
  createAccessList : AccessListCall → Except RpcError AccessListResult
  writeContract : WriteCall → Except RpcError Nat
  waitForTransactionReceipt : Nat → Except RpcError Receipt

/-- One RPC-issuing step of the run, recorded when the call is made. -/
inductive Step
  | getBalance (address : Address)
  | readTokenInfo (token account : Address)
  | simulate (call : SimCall)
  | accessList (call : AccessListCall)
  | submit (call : WriteCall)
  | poll (hash : Nat)
deriving DecidableEq, Repr

/-- The shape of a `Step`, forgetting its argument. -/
inductive StepKind
  | getBalance
  | readTokenInfo
  | simulate
  | accessList
  | submit
  | poll
deriving DecidableEq, Repr

/-- Forget a step's argument. -/
def Step.kind : Step → StepKind
  | .getBalance _ => .getBalance
  | .readTokenInfo _ _ => .readTokenInfo
  | .simulate _ => .simulate
  | .accessList _ => .accessList
  | .submit _ => .submit
  | .poll _ => .poll

/-- The full order of RPC-issuing steps of a maximal (transaction-sending)
run. -/
def fullStepOrder : List StepKind :=
  [.getBalance, .readTokenInfo, .simulate, .accessList, .submit, .poll]

/-- How a run ends abnormally: an uncaught rejected promise (`.rpc`), a
script `throw` (`.thrown`), or a viem encoding error raised before the RPC
is issued. -/
inductive ProgErr
  | rpc (e : RpcError)
  | thrown (msg : String)
  | invalidDecimalNumber
  | integerOutOfRange
deriving DecidableEq, Repr

/-- How a run ends normally: the read-only early return (demo.ts line 194)
or a sent transaction with its receipt. -/
inductive Outcome
  | readOnlyDone
  | sent (receipt : Receipt)
deriving DecidableEq, Repr

/-- demo.ts line 21: `TOKEN_SEND_AMOUNT = 0.01`; line 170 passes
`TOKEN_SEND_AMOUNT.toString()`, which is `"0.01"`. -/
def tokenSendAmountString : String := "0.01"

/-- The three `readContract` calls under `Promise.all` (demo.ts lines
124-141); any rejection rejects the joint await.  The first rejection in
field order stands for `Promise.all`'s rejection value (which one wins
does not affect any claim). -/
def readTokenInfo (t : Transport) (token account : Address) :
    Except RpcError (String × Nat × Int) := do
  let symbol ← t.readSymbol token
  let decimals ← t.readDecimals token
  let balance ← t.readBalanceOf token account
  pure (symbol, decimals, balance)

/-- The simulate call the script builds: a self-transfer
(`args: [accountAddress, parseUnits(...)]`) on the token contract. -/
def mkSimCall (account token : Address) (amount : Nat) : SimCall :=
  { account := account, toAddr := token, data := encodeTransferData account amount }

/-- The `request` a successful `simulateContract` returns for this call. -/
def mkRequest (account token : Address) (amount : Nat) : Request :=
  { address := token, functionName := "transfer", recipient := account,
    amount := amount, account := account }

/-- demo.ts lines 177-186: `createAccessList({account: accountAddress,
to: request.address, data: encodeFunctionData({abi: request.abi,
functionName: request.functionName, args: request.args}), value: 0n})`. -/
def mkAccessListCall (account : Address) (req : Request) : AccessListCall :=
  { account := account, toAddr := req.address,
    data := encodeTransferData req.recipient req.amount, value := 0 }

/-- demo.ts lines 203-206: `writeContract({...request, account})`. -/
def mkWriteCall (req : Request) (signer : Address) : WriteCall :=
  { address := req.address, functionName := req.functionName,
    recipient := req.recipient, amount := req.amount, signer := signer }

/-- The async IIFE (demo.ts lines 101-213): balances, token reads, balance
gate, simulate, access-list request, read-only early return, submit, poll.
Returns the ordered list of RPC steps issued and the final outcome. -/
def runMain (cfg : Config) (t : Transport) : List Step × Except ProgErr Outcome :=
  let acct := accountAddress cfg
  let tok := tokenAddress cfg.chain
  match t.getBalance acct with
  | .error e => ([.getBalance acct], .error (.rpc e))
  | .ok _nativeBalance =>
    match readTokenInfo t tok acct with
    | .error e => ([.getBalance acct, .readTokenInfo tok acct], .error (.rpc e))
    | .ok (symbol, decimals, balance) =>
      -- demo.ts line 146: `if (tokenBalance <= 0 && !isUsingFallback) throw`
      if balance ≤ 0 ∧ cfg.mnemonicAccount.isSome then
        ([.getBalance acct, .readTokenInfo tok acct],
         .error (.thrown ("Please add " ++ symbol ++ " to your account")))
      else
        match parseUnits tokenSendAmountString decimals with
        | none =>
          ([.getBalance acct, .readTokenInfo tok acct],
           .error .invalidDecimalNumber)
        | some amountInt =>
          -- viem's uint256 range check, raised while encoding the call
          -- data, before any RPC is issued
          if amountInt < 0 ∨ (2 : Int) ^ 256 ≤ amountInt then
            ([.getBalance acct, .readTokenInfo tok acct],
             .error .integerOutOfRange)
          else
            let amount := amountInt.toNat
            let simCall := mkSimCall acct tok amount
            match t.simulateContract simCall with
            | .error e =>
              ([.getBalance acct, .readTokenInfo tok acct, .simulate simCall],
               .error (.rpc e))
            | .ok _ =>
              let request := mkRequest acct tok amount
              let alCall := mkAccessListCall acct request
              match t.createAccessList alCall with
              | .error e =>
                ([.getBalance acct, .readTokenInfo tok acct,
                  .simulate simCall, .accessList alCall], .error (.rpc e))
              | .ok _result =>
                -- demo.ts line 191: early return in read-only mode
                if cfg.mnemonicAccount.isNone then
                  ([.getBalance acct, .readTokenInfo tok acct,
                    .simulate simCall, .accessList alCall], .ok .readOnlyDone)
                else
                  match cfg.mnemonicAccount with
                  | none =>
                    -- demo.ts line 198: `if (!account) throw` (dead under
                    -- the early return above, kept for faithfulness)
                    ([.getBalance acct, .readTokenInfo tok acct,
                      .simulate simCall, .accessList alCall],
                     .error (.thrown "Account is required for transaction sending"))
                  | some signer =>
                    let writeCall := mkWriteCall request signer
                    match t.writeContract writeCall with
                    | .error e =>
                      ([.getBalance acct, .readTokenInfo tok acct,
                        .simulate simCall, .accessList alCall,
                        .submit writeCall], .error (.rpc e))
                    | .ok txHash =>
                      match t.waitForTransactionReceipt txHash with
                      | .error e =>
                        ([.getBalance acct, .readTokenInfo tok acct,
                          .simulate simCall, .accessList alCall,
                          .submit writeCall, .poll txHash], .error (.rpc e))
                      | .ok receipt =>
                        ([.getBalance acct, .readTokenInfo tok acct,
                          .simulate simCall, .accessList alCall,
                          .submit writeCall, .poll txHash], .ok (.sent receipt))

/-! ## Concrete providers and configurations (used in examples below) -/

/-- A provider that answers every call the script makes (the README's
"Base + Alchemy" row): 0.1 native token, USDC with 6 decimals, balance
1.0 USDC, accepts the dry run, returns an access list, accepts the
transaction and confirms it. -/
def okTransport : Transport where
  getBalance := fun _ => .ok 100000000000000000
  readSymbol := fun _ => .ok "USDC"
  readDecimals := fun _ => .ok 6
  readBalanceOf := fun _ _ => .ok 1000000
  simulateContract := fun _ => .ok ()
  createAccessList := fun _ =>
    .ok { accessList := [(0x833589fcd6edb6e08f4c7c32d4f71b54bda02913, [0])],
          gasUsed := 30000 }
  writeContract := fun _ => .ok 0xabcdef
  waitForTransactionReceipt := fun _ =>
    .ok { status := true, gasUsed := 45000, blockNumber := 1234567 }

/-- The README's "Celo + Forno" row: identical to `okTransport` except that
`eth_createAccessList` is rejected with the literal Forno error. -/
def fornoTransport : Transport :=
  { okTransport with
    createAccessList := fun _ =>
      .error { code := -32601, message := "rpc method is not whitelisted" } }

/-- `okTransport` with a zero token balance. -/
def zeroBalanceTransport : Transport :=
  { okTransport with readBalanceOf := fun _ _ => .ok 0 }

/-- A run with a mnemonic set (signing mode). -/
def signingConfig : Config :=
  { chain := .celo,
    mnemonicAccount := some 0x1111111111111111111111111111111111111111 }

/-- A run without a mnemonic (read-only / fallback mode). -/
def fallbackConfig : Config := { chain := .base, mnemonicAccount := none }

/-! ## The independent read phase as a reorderable sequence (spec §5)

The script issues four independent reads: the native balance (demo.ts
line 117) and, under `Promise.all`, the token symbol, decimals and
balance (lines 124-141).  Against a fixed provider response mapping each
read is a pure lookup, so the quadruple of results is a function of the
set of reads issued, not of their order; `runReads` makes the order
explicit so that this can be stated. -/

/-- One of the four independent read queries. -/
inductive ReadKind
  | nativeBalance
  | symbol
  | decimals
  | balanceOf
deriving DecidableEq, Repr

/-- Equality of `Except` results is decidable when it is on both sides. -/
instance {ε α : Type} [DecidableEq ε] [DecidableEq α] :
    DecidableEq (Except ε α) := fun
  | .error e, .error f =>
    decidable_of_iff (e = f) ⟨fun h => h ▸ rfl, fun h => by cases h; rfl⟩
  | .error _, .ok _ => isFalse (by intro h; cases h)
  | .ok _, .error _ => isFalse (by intro h; cases h)
  | .ok a, .ok b =>
    decidable_of_iff (a = b) ⟨fun h => h ▸ rfl, fun h => by cases h; rfl⟩

/-- The four read results, each `none` until its query has been issued. -/
structure ReadResults where
  nativeBalance : Option (Except RpcError Int) := none
  tokenSymbol : Option (Except RpcError String) := none
  tokenDecimals : Option (Except RpcError Nat) := none
  tokenBalance : Option (Except RpcError Int) := none
deriving DecidableEq, Repr

/-- Issue one read against the provider and record its result. -/
def readStep (t : Transport) (token account : Address) (s : ReadResults) :
    ReadKind → ReadResults
  | .nativeBalance => { s with nativeBalance := some (t.getBalance account) }
  | .symbol => { s with tokenSymbol := some (t.readSymbol token) }
  | .decimals => { s with tokenDecimals := some (t.readDecimals token) }
  | .balanceOf => { s with tokenBalance := some (t.readBalanceOf token account) }

/-- Issue the given reads in the given order. -/
def runReads (t : Transport) (token account : Address)
    (order : List ReadKind) : ReadResults :=
  order.foldl (readStep t token account) {}

/-- The order the script uses: native balance first, then the
`Promise.all` triple in argument order. -/
def scriptReadOrder : List ReadKind :=
  [.nativeBalance, .symbol, .decimals, .balanceOf]

/-! ## Spec-modelled operations

The two client operations below live in the client library (viem), not in
`src/`; only their call sites appear in `demo.ts`.  They are modelled from
the specification's contract for them (§4.1). -/

/-- The recognised causes of `AccessListUnavailable` (spec §4.1). -/
inductive AccessListCause
  | methodNotSupported
  | handlerCrashed
  | gasMisestimated
deriving DecidableEq, Repr

/-- Failure of executing `eth_createAccessList` once a concrete gas limit
is fixed: per spec §4.1, `GasMisestimated` arises only from the provider's
internal gas-estimation path, never from execution with an explicit gas
limit, so it is absent here. -/
inductive ExecFailure
  | methodNotSupported
  | handlerCrashed
deriving DecidableEq, Repr

/-- Map an execution failure to its `AccessListUnavailable` cause. -/
def ExecFailure.cause : ExecFailure → AccessListCause
  | .methodNotSupported => .methodNotSupported
  | .handlerCrashed => .handlerCrashed

/-- Modelled from the spec: a provider's `eth_createAccessList` behaviour,
split into the execution of the call at a concrete gas limit and the
provider-internal gas estimation that is consulted only when the caller
supplies no gas limit (spec §4.1, `GasMisestimated`). -/
structure AlProvider where
  execute : AccessListCall → Nat → Except ExecFailure AccessListResult
  estimateGas : AccessListCall → Except RpcError Nat

/-- Outcome of `RequestAccessList`: a well-formed access list or the
single recoverable `AccessListUnavailable{cause}` outcome (spec §4.1). -/
inductive RequestAccessListOutcome
  | ok (result : AccessListResult)
  | unavailable (cause : AccessListCause)
deriving DecidableEq, Repr

/-- Modelled from the spec: `RequestAccessList(callRequest,
optionalGasLimit)` (spec §4.1).  The gas-limit parameter is first-class
and optional; when it is supplied the provider's internal estimation path
is bypassed entirely, and when it is omitted an estimation error is the
`GasMisestimated` cause. -/
def requestAccessList (p : AlProvider) (call : AccessListCall)
    (gasLimit : Option Nat) : RequestAccessListOutcome :=
  match gasLimit with
  | some gas =>
    match p.execute call gas with
    | .ok result => .ok result
    | .error f => .unavailable f.cause
  | none =>
    match p.estimateGas call with
    | .error _ => .unavailable .gasMisestimated
    | .ok gas =>
      match p.execute call gas with
      | .ok result => .ok result
      | .error f => .unavailable f.cause

/-- `TimeoutError` of `WaitForReceipt`, carrying the logical time (ms) at
which the timeout fired. -/
structure TimeoutError where
  elapsedMs : Nat
deriving DecidableEq, Repr

/-- Polling loop of `WaitForReceipt` in discrete logical time: attempt a
fetch at times `0, pollIntervalMs, 2·pollIntervalMs, …` strictly before
`timeoutMs`; the fuel bounds the number of attempts (with `timeoutMs + 1`
units it never runs out before the timeout check fires, also when
`pollIntervalMs = 0`). -/
def pollLoop (fetch : Nat → Option Receipt) (pollIntervalMs timeoutMs : Nat) :
    Nat → Nat → Option (Receipt × Nat)
  | 0, _ => none
  | fuel + 1, now =>
    if timeoutMs ≤ now then none
    else
      match fetch now with
      | some receipt => some (receipt, now)
      | none => pollLoop fetch pollIntervalMs timeoutMs fuel (now + pollIntervalMs)

/-- Modelled from the spec: `WaitForReceipt(transactionHash,
pollIntervalMs, timeoutMs)` (spec §4.1), over a transport modelled as what
the receipt fetch returns at each logical instant.  Polls until the
receipt is available or the timeout elapses; fails with `TimeoutError`
on expiry, at logical time `timeoutMs`. -/
def waitForReceipt (fetch : Nat → Option Receipt)
    (pollIntervalMs timeoutMs : Nat) : Except TimeoutError (Receipt × Nat) :=
  match pollLoop fetch pollIntervalMs timeoutMs (timeoutMs + 1) 0 with
  | some (receipt, at_) => .ok (receipt, at_)
  | none => .error ⟨timeoutMs⟩

/-! ## Theorems -/

/-- **C3 counterexample.** Constructing the client with no RPC URL at all
(no `--rpc-url`, no environment variable) does not fail: the transport
comes up on the chain's default endpoint.  A syntactically unparsable URL
is likewise accepted unvalidated.  This contradicts the claim that an
empty or unparsable transport URL is a fatal `ConfigurationError`. -/
theorem c3_missing_url_uses_default_counterexample :
    httpTransportUrl (resolveRpcUrl none none) (chainDefaultUrl .base) =
      .ok "https://mainnet.base.org" ∧
    httpTransportUrl (resolveRpcUrl (some "not a url") none)
      (chainDefaultUrl .base) = .ok "not a url" :=
  ⟨rfl, rfl⟩

/-- **C3 (amended).** Client construction never fails on a missing or
empty transport URL for the supported chains: viem's `http()` falls back
to the chain's default RPC endpoint, and no URL validation happens at
construction, so any truthy string (parsable or not) is accepted as-is. -/
theorem c3_construction_never_fails (customRpcUrl envRpcUrl : Option String)
    (chain : ChainName) :
    ∃ url,
      httpTransportUrl (resolveRpcUrl customRpcUrl envRpcUrl)
        (chainDefaultUrl chain) = .ok url ∧
      (jsTruthy (resolveRpcUrl customRpcUrl envRpcUrl) = false →
        url = chainDefaultUrl chain) ∧
      (jsTruthy (resolveRpcUrl customRpcUrl envRpcUrl) = true →
        some url = resolveRpcUrl customRpcUrl envRpcUrl) := by
  rcases hres : resolveRpcUrl customRpcUrl envRpcUrl with _ | s
  · refine ⟨chainDefaultUrl chain, ?_, fun _ => rfl, ?_⟩
    · cases chain <;> rfl
    · intro h; simp [jsTruthy] at h
  · by_cases hs : s = ""
    · subst hs
      refine ⟨chainDefaultUrl chain, ?_, fun _ => rfl, ?_⟩
      · cases chain <;> rfl
      · intro h; simp [jsTruthy] at h
    · refine ⟨s, ?_, ?_, fun _ => rfl⟩
      · simp [httpTransportUrl, jsTruthy, hs]
      · intro h; simp [jsTruthy, hs] at h

/-- Witness for `c3_construction_never_fails` at a concrete input: on
Celo with no URL from either source, construction yields the Forno
default endpoint. -/
theorem c3_construction_never_fails_witness :
    httpTransportUrl (resolveRpcUrl none none) (chainDefaultUrl .celo) =
      .ok (chainDefaultUrl .celo) := by
  obtain ⟨u, h1, h2, _⟩ := c3_construction_never_fails none none .celo
  rw [h1, h2 rfl]

/-- **C2.** `RequestAccessList` takes the gas limit as a first-class
optional parameter; whenever an explicit gas limit is supplied the
`GasMisestimated` failure mode cannot occur, because the provider's
internal estimation path is bypassed entirely — the outcome does not
depend on the provider's estimator at all. -/
theorem c2_gas_limit_bypasses_estimation (p p' : AlProvider)
    (call : AccessListCall) (gas : Nat) :
    requestAccessList p call (some gas) ≠
      .unavailable .gasMisestimated ∧
    (p.execute = p'.execute →
      requestAccessList p call (some gas) =
        requestAccessList p' call (some gas)) := by
  constructor
  · intro hc
    cases hp : p.execute call gas with
    | ok r => simp [requestAccessList, hp] at hc
    | error f =>
      cases f <;> simp [requestAccessList, ExecFailure.cause, hp] at hc
  · intro h
    unfold requestAccessList
    rw [h]

/-- A provider whose estimator is broken (the README's QuickNode-style
"insufficient funds … want 30000600000000000000" response) but whose
execution at an explicit gas limit works. -/
def brokenEstimatorProvider : AlProvider where
  execute := fun _ gas => .ok { accessList := [], gasUsed := gas }
  estimateGas := fun _ =>
    .error { code := -32000,
             message := "insufficient funds for gas * price + value: want 30000600000000000000" }

/-- Witness for `c2_gas_limit_bypasses_estimation`: at a concrete call and
gas limit against `brokenEstimatorProvider`. -/
theorem c2_gas_limit_bypasses_estimation_witness :
    requestAccessList brokenEstimatorProvider
        (mkAccessListCall FALLBACK_ADDRESS
          (mkRequest FALLBACK_ADDRESS (tokenAddress .celo) 10000))
        (some 30000) ≠ .unavailable .gasMisestimated ∧
    requestAccessList brokenEstimatorProvider
        (mkAccessListCall FALLBACK_ADDRESS
          (mkRequest FALLBACK_ADDRESS (tokenAddress .celo) 10000))
        (some 30000) =
      requestAccessList brokenEstimatorProvider
        (mkAccessListCall FALLBACK_ADDRESS
          (mkRequest FALLBACK_ADDRESS (tokenAddress .celo) 10000))
        (some 30000) :=
  ⟨(c2_gas_limit_bypasses_estimation brokenEstimatorProvider
      brokenEstimatorProvider _ 30000).1,
   (c2_gas_limit_bypasses_estimation brokenEstimatorProvider
      brokenEstimatorProvider _ 30000).2 rfl⟩

/-- **C7.** `WaitForReceipt` takes caller-supplied poll-interval and
timeout parameters; against a transport that never returns a receipt it
fails with `TimeoutError`, with the expiry firing at logical time
`timeoutMs` exactly (so for `timeoutMs = 100` the failure is within the
claimed 100 ms margin); and a receipt available at the first poll is
returned immediately. -/
theorem c7_wait_for_receipt_times_out (pollIntervalMs timeoutMs : Nat) :
    (∀ fetch : Nat → Option Receipt, (∀ t, fetch t = none) →
      waitForReceipt fetch pollIntervalMs timeoutMs = .error ⟨timeoutMs⟩) ∧
    (∀ (fetch : Nat → Option Receipt) (r : Receipt), 0 < timeoutMs →
      fetch 0 = some r →
      waitForReceipt fetch pollIntervalMs timeoutMs = .ok (r, 0)) := by
  constructor
  · intro fetch hf
    have hloop : ∀ fuel now,
        pollLoop fetch pollIntervalMs timeoutMs fuel now = none := by
      intro fuel
      induction fuel with
      | zero => intro now; rfl
      | succ n ih =>
        intro now
        unfold pollLoop
        rw [hf now]
        split <;> simp [ih]
    simp [waitForReceipt, hloop]
  · intro fetch r h0 hf
    have hone : pollLoop fetch pollIntervalMs timeoutMs (timeoutMs + 1) 0 =
        some (r, 0) := by
      unfold pollLoop
      rw [if_neg (by omega), hf]
    simp [waitForReceipt, hone]

/-- A receipt used by the `WaitForReceipt` witness. -/
def receiptEx : Receipt := { status := true, gasUsed := 21000, blockNumber := 42 }

/-- Witness for `c7_wait_for_receipt_times_out` at `pollIntervalMs = 10`,
`timeoutMs = 100`, with the never-answering and the immediately-answering
fetches. -/
theorem c7_wait_for_receipt_times_out_witness :
    waitForReceipt (fun _ => none) 10 100 = .error ⟨100⟩ ∧
    waitForReceipt (fun _ => some receiptEx) 10 100 = .ok (receiptEx, 0) :=
  ⟨(c7_wait_for_receipt_times_out 10 100).1 (fun _ => none) (fun _ => rfl),
   (c7_wait_for_receipt_times_out 10 100).2 (fun _ => some receiptEx)
     receiptEx (by decide) rfl⟩

/-- **C8.** The four independent read queries are order-independent: for a
fixed provider response mapping, issuing them in any relative order yields
the same results. -/
theorem c8_reads_order_independent (t : Transport) (token account : Address)
    (order1 order2 : List ReadKind) (h : order1.Perm order2) :
    runReads t token account order1 = runReads t token account order2 := by
  have comm : ∀ (s : ReadResults) (k1 k2 : ReadKind),
      readStep t token account (readStep t token account s k1) k2 =
        readStep t token account (readStep t token account s k2) k1 := by
    intro s k1 k2
    cases k1 <;> cases k2 <;> rfl
  have key : ∀ (l1 l2 : List ReadKind), l1.Perm l2 → ∀ s : ReadResults,
      l1.foldl (readStep t token account) s =
        l2.foldl (readStep t token account) s := by
    intro l1 l2 hp
    induction hp with
    | nil => intro s; rfl
    | cons x _ ih => intro s; simp only [List.foldl_cons]; exact ih _
    | swap x y l => intro s; simp only [List.foldl_cons]; rw [comm]
    | trans _ _ ih1 ih2 => intro s; rw [ih1, ih2]
  exact key order1 order2 h {}

/-- Witness for `c8_reads_order_independent`: the script's order versus
its reverse, against `okTransport`. -/
theorem c8_reads_order_independent_witness :
    runReads okTransport (tokenAddress .base) FALLBACK_ADDRESS
        scriptReadOrder =
      runReads okTransport (tokenAddress .base) FALLBACK_ADDRESS
        [.balanceOf, .decimals, .symbol, .nativeBalance] :=
  c8_reads_order_independent okTransport (tokenAddress .base)
    FALLBACK_ADDRESS _ _ (by decide)

/-! ### Exhaustive branch analysis of `runMain` -/

/-- Trace after the native-balance read. -/
def traceGB (cfg : Config) : List Step := [.getBalance (accountAddress cfg)]

/-- Trace after the token reads. -/
def traceRT (cfg : Config) : List Step :=
  [.getBalance (accountAddress cfg),
   .readTokenInfo (tokenAddress cfg.chain) (accountAddress cfg)]

/-- Trace after the dry-run simulation call. -/
def traceSim (cfg : Config) (amount : Nat) : List Step :=
  traceRT cfg ++
    [.simulate (mkSimCall (accountAddress cfg) (tokenAddress cfg.chain) amount)]

/-- Trace after the access-list request. -/
def traceAL (cfg : Config) (amount : Nat) : List Step :=
  traceSim cfg amount ++
    [.accessList (mkAccessListCall (accountAddress cfg)
      (mkRequest (accountAddress cfg) (tokenAddress cfg.chain) amount))]

/-- Trace after the transaction submission. -/
def traceSubmit (cfg : Config) (amount : Nat) (signer : Address) : List Step :=
  traceAL cfg amount ++
    [.submit (mkWriteCall
      (mkRequest (accountAddress cfg) (tokenAddress cfg.chain) amount) signer)]

/-- Trace after the receipt poll. -/
def tracePoll (cfg : Config) (amount : Nat) (signer : Address) (hash : Nat) :
    List Step :=
  traceSubmit cfg amount signer ++ [.poll hash]

set_option maxRecDepth 10000 in
/-- Exhaustive case analysis of a run: every invocation falls into exactly
one of the script's eleven control-flow exits, each recorded here with the
responses that select it and the trace and outcome it produces. -/
theorem runMain_branches (cfg : Config) (t : Transport) :
    (∃ e, t.getBalance (accountAddress cfg) = .error e ∧
      runMain cfg t = (traceGB cfg, .error (.rpc e))) ∨
    (∃ nb e, t.getBalance (accountAddress cfg) = .ok nb ∧
      readTokenInfo t (tokenAddress cfg.chain) (accountAddress cfg) = .error e ∧
      runMain cfg t = (traceRT cfg, .error (.rpc e))) ∨
    (∃ nb symbol decimals balance,
      t.getBalance (accountAddress cfg) = .ok nb ∧
      readTokenInfo t (tokenAddress cfg.chain) (accountAddress cfg) =
        .ok (symbol, decimals, balance) ∧
      balance ≤ 0 ∧ cfg.mnemonicAccount.isSome = true ∧
      runMain cfg t = (traceRT cfg,
        .error (.thrown ("Please add " ++ symbol ++ " to your account")))) ∨
    (∃ nb symbol decimals balance,
      t.getBalance (accountAddress cfg) = .ok nb ∧
      readTokenInfo t (tokenAddress cfg.chain) (accountAddress cfg) =
        .ok (symbol, decimals, balance) ∧
      ¬(balance ≤ 0 ∧ cfg.mnemonicAccount.isSome = true) ∧
      parseUnits tokenSendAmountString decimals = none ∧
      runMain cfg t = (traceRT cfg, .error .invalidDecimalNumber)) ∨
    (∃ nb symbol decimals balance amountInt,
      t.getBalance (accountAddress cfg) = .ok nb ∧
      readTokenInfo t (tokenAddress cfg.chain) (accountAddress cfg) =
        .ok (symbol, decimals, balance) ∧
      ¬(balance ≤ 0 ∧ cfg.mnemonicAccount.isSome = true) ∧
      parseUnits tokenSendAmountString decimals = some amountInt ∧
      (amountInt < 0 ∨ (2 : Int) ^ 256 ≤ amountInt) ∧
      runMain cfg t = (traceRT cfg, .error .integerOutOfRange)) ∨
    (∃ nb symbol decimals balance amountInt e,
      t.getBalance (accountAddress cfg) = .ok nb ∧
      readTokenInfo t (tokenAddress cfg.chain) (accountAddress cfg) =
        .ok (symbol, decimals, balance) ∧
      ¬(balance ≤ 0 ∧ cfg.mnemonicAccount.isSome = true) ∧
      parseUnits tokenSendAmountString decimals = some amountInt ∧
      ¬(amountInt < 0 ∨ (2 : Int) ^ 256 ≤ amountInt) ∧
      t.simulateContract (mkSimCall (accountAddress cfg) (tokenAddress cfg.chain)
        amountInt.toNat) = .error e ∧
      runMain cfg t = (traceSim cfg amountInt.toNat, .error (.rpc e))) ∨
    (∃ nb symbol decimals balance amountInt e,
      t.getBalance (accountAddress cfg) = .ok nb ∧
      readTokenInfo t (tokenAddress cfg.chain) (accountAddress cfg) =
        .ok (symbol, decimals, balance) ∧
      ¬(balance ≤ 0 ∧ cfg.mnemonicAccount.isSome = true) ∧
      parseUnits tokenSendAmountString decimals = some amountInt ∧
      ¬(amountInt < 0 ∨ (2 : Int) ^ 256 ≤ amountInt) ∧
      t.simulateContract (mkSimCall (accountAddress cfg) (tokenAddress cfg.chain)
        amountInt.toNat) = .ok () ∧
      t.createAccessList (mkAccessListCall (accountAddress cfg)
        (mkRequest (accountAddress cfg) (tokenAddress cfg.chain)
          amountInt.toNat)) = .error e ∧
      runMain cfg t = (traceAL cfg amountInt.toNat, .error (.rpc e))) ∨
    (∃ nb symbol decimals balance amountInt result,
      t.getBalance (accountAddress cfg) = .ok nb ∧
      readTokenInfo t (tokenAddress cfg.chain) (accountAddress cfg) =
        .ok (symbol, decimals, balance) ∧
      ¬(balance ≤ 0 ∧ cfg.mnemonicAccount.isSome = true) ∧
      parseUnits tokenSendAmountString decimals = some amountInt ∧
      ¬(amountInt < 0 ∨ (2 : Int) ^ 256 ≤ amountInt) ∧
      t.simulateContract (mkSimCall (accountAddress cfg) (tokenAddress cfg.chain)
        amountInt.toNat) = .ok () ∧
      t.createAccessList (mkAccessListCall (accountAddress cfg)
        (mkRequest (accountAddress cfg) (tokenAddress cfg.chain)
          amountInt.toNat)) = .ok result ∧
      cfg.mnemonicAccount = none ∧
      runMain cfg t = (traceAL cfg amountInt.toNat, .ok .readOnlyDone)) ∨
    (∃ nb symbol decimals balance amountInt result signer e,
      t.getBalance (accountAddress cfg) = .ok nb ∧
      readTokenInfo t (tokenAddress cfg.chain) (accountAddress cfg) =
        .ok (symbol, decimals, balance) ∧
      ¬(balance ≤ 0 ∧ cfg.mnemonicAccount.isSome = true) ∧
      parseUnits tokenSendAmountString decimals = some amountInt ∧
      ¬(amountInt < 0 ∨ (2 : Int) ^ 256 ≤ amountInt) ∧
      t.simulateContract (mkSimCall (accountAddress cfg) (tokenAddress cfg.chain)
        amountInt.toNat) = .ok () ∧
      t.createAccessList (mkAccessListCall (accountAddress cfg)
        (mkRequest (accountAddress cfg) (tokenAddress cfg.chain)
          amountInt.toNat)) = .ok result ∧
      cfg.mnemonicAccount = some signer ∧
      t.writeContract (mkWriteCall (mkRequest (accountAddress cfg)
        (tokenAddress cfg.chain) amountInt.toNat) signer) = .error e ∧
      runMain cfg t = (traceSubmit cfg amountInt.toNat signer, .error (.rpc e))) ∨
    (∃ nb symbol decimals balance amountInt result signer hash e,
      t.getBalance (accountAddress cfg) = .ok nb ∧
      readTokenInfo t (tokenAddress cfg.chain) (accountAddress cfg) =
        .ok (symbol, decimals, balance) ∧
      ¬(balance ≤ 0 ∧ cfg.mnemonicAccount.isSome = true) ∧
      parseUnits tokenSendAmountString decimals = some amountInt ∧
      ¬(amountInt < 0 ∨ (2 : Int) ^ 256 ≤ amountInt) ∧
      t.simulateContract (mkSimCall (accountAddress cfg) (tokenAddress cfg.chain)
        amountInt.toNat) = .ok () ∧
      t.createAccessList (mkAccessListCall (accountAddress cfg)
        (mkRequest (accountAddress cfg) (tokenAddress cfg.chain)
          amountInt.toNat)) = .ok result ∧
      cfg.mnemonicAccount = some signer ∧
      t.writeContract (mkWriteCall (mkRequest (accountAddress cfg)
        (tokenAddress cfg.chain) amountInt.toNat) signer) = .ok hash ∧
      t.waitForTransactionReceipt hash = .error e ∧
      runMain cfg t = (tracePoll cfg amountInt.toNat signer hash,
        .error (.rpc e))) ∨
    (∃ nb symbol decimals balance amountInt result signer hash receipt,
      t.getBalance (accountAddress cfg) = .ok nb ∧
      readTokenInfo t (tokenAddress cfg.chain) (accountAddress cfg) =
        .ok (symbol, decimals, balance) ∧
      ¬(balance ≤ 0 ∧ cfg.mnemonicAccount.isSome = true) ∧
      parseUnits tokenSendAmountString decimals = some amountInt ∧
      ¬(amountInt < 0 ∨ (2 : Int) ^ 256 ≤ amountInt) ∧
      t.simulateContract (mkSimCall (accountAddress cfg) (tokenAddress cfg.chain)
        amountInt.toNat) = .ok () ∧
      t.createAccessList (mkAccessListCall (accountAddress cfg)
        (mkRequest (accountAddress cfg) (tokenAddress cfg.chain)
          amountInt.toNat)) = .ok result ∧
      cfg.mnemonicAccount = some signer ∧
      t.writeContract (mkWriteCall (mkRequest (accountAddress cfg)
        (tokenAddress cfg.chain) amountInt.toNat) signer) = .ok hash ∧
      t.waitForTransactionReceipt hash = .ok receipt ∧
      runMain cfg t = (tracePoll cfg amountInt.toNat signer hash,
        .ok (.sent receipt))) := by
  rcases hgb : t.getBalance (accountAddress cfg) with e | nb
  · exact Or.inl ⟨e, rfl, by simp [runMain, hgb, traceGB]⟩
  rcases hrt : readTokenInfo t (tokenAddress cfg.chain) (accountAddress cfg)
    with e | ⟨symbol, decimals, balance⟩
  · exact Or.inr (Or.inl ⟨nb, e, rfl, rfl, by simp [runMain, hgb, hrt, traceRT]⟩)
  rcases hacc : cfg.mnemonicAccount with _ | signer
  · -- read-only mode: the balance gate never fires
    rcases hpu : parseUnits tokenSendAmountString decimals with _ | amountInt
    · refine Or.inr (Or.inr (Or.inr (Or.inl ⟨nb, symbol, decimals, balance,
        rfl, rfl, by simp, hpu, ?_⟩)))
      simp [runMain, hgb, hrt, hacc, hpu, traceRT]
    by_cases hrange : amountInt < 0 ∨ (2 : Int) ^ 256 ≤ amountInt
    · refine Or.inr (Or.inr (Or.inr (Or.inr (Or.inl ⟨nb, symbol, decimals,
        balance, amountInt, rfl, rfl, by simp, hpu, hrange, ?_⟩))))
      simp [runMain, hgb, hrt, hacc, hpu, traceRT]
      intro h1 h2
      exact absurd hrange (by omega)
    rcases hsim : t.simulateContract (mkSimCall (accountAddress cfg)
        (tokenAddress cfg.chain) amountInt.toNat) with e | u
    · refine Or.inr (Or.inr (Or.inr (Or.inr (Or.inr (Or.inl ⟨nb, symbol,
        decimals, balance, amountInt, e, rfl, rfl, by simp, hpu, hrange,
        hsim, ?_⟩)))))
      simp [runMain, hgb, hrt, hacc, hpu, hrange, hsim, traceSim, traceRT]
      omega
    rcases hal : t.createAccessList (mkAccessListCall (accountAddress cfg)
        (mkRequest (accountAddress cfg) (tokenAddress cfg.chain)
          amountInt.toNat)) with e | result
    · refine Or.inr (Or.inr (Or.inr (Or.inr (Or.inr (Or.inr (Or.inl ⟨nb,
        symbol, decimals, balance, amountInt, e, rfl, rfl, by simp, hpu,
        hrange, hsim, hal, ?_⟩))))))
      simp [runMain, hgb, hrt, hacc, hpu, hrange, hsim, hal, traceAL,
        traceSim, traceRT]
      omega
    · refine Or.inr (Or.inr (Or.inr (Or.inr (Or.inr (Or.inr (Or.inr (Or.inl
        ⟨nb, symbol, decimals, balance, amountInt, result, rfl, rfl, by simp,
        hpu, hrange, hsim, hal, rfl, ?_⟩)))))))
      simp [runMain, hgb, hrt, hacc, hpu, hrange, hsim, hal, traceAL,
        traceSim, traceRT]
      omega
  · -- signing mode
    by_cases hbal : balance ≤ 0
    · refine Or.inr (Or.inr (Or.inl ⟨nb, symbol, decimals, balance, rfl, rfl,
        hbal, rfl, ?_⟩))
      simp [runMain, hgb, hrt, hacc, hbal, traceRT]
    have hgate : ¬(balance ≤ 0 ∧ (some signer : Option Address).isSome = true) :=
      fun h => hbal h.1
    rcases hpu : parseUnits tokenSendAmountString decimals with _ | amountInt
    · refine Or.inr (Or.inr (Or.inr (Or.inl ⟨nb, symbol, decimals, balance,
        rfl, rfl, hgate, hpu, ?_⟩)))
      simp [runMain, hgb, hrt, hacc, hbal, hpu, traceRT]
    by_cases hrange : amountInt < 0 ∨ (2 : Int) ^ 256 ≤ amountInt
    · refine Or.inr (Or.inr (Or.inr (Or.inr (Or.inl ⟨nb, symbol, decimals,
        balance, amountInt, rfl, rfl, hgate, hpu, hrange, ?_⟩))))
      simp [runMain, hgb, hrt, hacc, hbal, hpu, traceRT]
      intro h1 h2
      exact absurd hrange (by omega)
    rcases hsim : t.simulateContract (mkSimCall (accountAddress cfg)
        (tokenAddress cfg.chain) amountInt.toNat) with e | u
    · refine Or.inr (Or.inr (Or.inr (Or.inr (Or.inr (Or.inl ⟨nb, symbol,
        decimals, balance, amountInt, e, rfl, rfl, hgate, hpu, hrange, hsim,
        ?_⟩)))))
      simp [runMain, hgb, hrt, hacc, hbal, hpu, hrange, hsim, traceSim,
        traceRT]
      omega
    rcases hal : t.createAccessList (mkAccessListCall (accountAddress cfg)
        (mkRequest (accountAddress cfg) (tokenAddress cfg.chain)
          amountInt.toNat)) with e | result
    · refine Or.inr (Or.inr (Or.inr (Or.inr (Or.inr (Or.inr (Or.inl ⟨nb,
        symbol, decimals, balance, amountInt, e, rfl, rfl, hgate, hpu,
        hrange, hsim, hal, ?_⟩))))))
      simp [runMain, hgb, hrt, hacc, hbal, hpu, hrange, hsim, hal, traceAL,
        traceSim, traceRT]
      omega
    rcases hw : t.writeContract (mkWriteCall (mkRequest (accountAddress cfg)
        (tokenAddress cfg.chain) amountInt.toNat) signer) with e | hash
    · refine Or.inr (Or.inr (Or.inr (Or.inr (Or.inr (Or.inr (Or.inr (Or.inr
        (Or.inl ⟨nb, symbol, decimals, balance, amountInt, result, signer, e,
        rfl, rfl, hgate, hpu, hrange, hsim, hal, rfl, hw, ?_⟩))))))))
      simp [runMain, hgb, hrt, hacc, hbal, hpu, hrange, hsim, hal, hw,
        traceSubmit, traceAL, traceSim, traceRT]
      omega
    rcases hrcpt : t.waitForTransactionReceipt hash with e | receipt
    · refine Or.inr (Or.inr (Or.inr (Or.inr (Or.inr (Or.inr (Or.inr (Or.inr
        (Or.inr (Or.inl ⟨nb, symbol, decimals, balance, amountInt, result,
        signer, hash, e, rfl, rfl, hgate, hpu, hrange, hsim, hal, rfl, hw,
        hrcpt, ?_⟩)))))))))
      simp [runMain, hgb, hrt, hacc, hbal, hpu, hrange, hsim, hal, hw,
        hrcpt, tracePoll, traceSubmit, traceAL, traceSim, traceRT]
      omega
    · refine Or.inr (Or.inr (Or.inr (Or.inr (Or.inr (Or.inr (Or.inr (Or.inr
        (Or.inr (Or.inr ⟨nb, symbol, decimals, balance, amountInt, result,
        signer, hash, receipt, rfl, rfl, hgate, hpu, hrange, hsim, hal, rfl,
        hw, hrcpt, ?_⟩)))))))))
      simp [runMain, hgb, hrt, hacc, hbal, hpu, hrange, hsim, hal, hw,
        hrcpt, tracePoll, traceSubmit, traceAL, traceSim, traceRT]
      omega

/-- **C5.** Within a single invocation the transaction-bearing operations
occur in the fixed order simulate → access-list request → submit → poll,
each step starting only after the previous one succeeded: the trace of
issued RPC steps is always an initial segment of `fullStepOrder`; an
access-list request is only issued after the simulate (dry-run) call
succeeded; a submission step is only issued after the simulate and
access-list calls succeeded; a poll step only after the submission
succeeded (returning the polled hash); submission occurs at most once; and
nothing follows the poll step, so Confirmed / Failed / TimedOut are
terminal. -/
theorem c5_strictly_sequential (cfg : Config) (t : Transport) :
    (∃ n, (runMain cfg t).1.map Step.kind = fullStepOrder.take n) ∧
    ((runMain cfg t).1.map Step.kind).count .submit ≤ 1 ∧
    (∀ a, Step.accessList a ∈ (runMain cfg t).1 →
      ∃ s, Step.simulate s ∈ (runMain cfg t).1 ∧
        t.simulateContract s = .ok ()) ∧
    (∀ w, Step.submit w ∈ (runMain cfg t).1 →
      (∃ s, Step.simulate s ∈ (runMain cfg t).1 ∧
        t.simulateContract s = .ok ()) ∧
      (∃ a result, Step.accessList a ∈ (runMain cfg t).1 ∧
        t.createAccessList a = .ok result)) ∧
    (∀ h, Step.poll h ∈ (runMain cfg t).1 →
      ∃ w, Step.submit w ∈ (runMain cfg t).1 ∧ t.writeContract w = .ok h) := by
  rcases runMain_branches cfg t with
      ⟨e, hgb, hrun⟩ |
      ⟨nb, e, hgb, hrt, hrun⟩ |
      ⟨nb, sym, d, bal, hgb, hrt, hbal, hsm, hrun⟩ |
      ⟨nb, sym, d, bal, hgb, hrt, hgate, hpu, hrun⟩ |
      ⟨nb, sym, d, bal, ai, hgb, hrt, hgate, hpu, hrange, hrun⟩ |
      ⟨nb, sym, d, bal, ai, e, hgb, hrt, hgate, hpu, hrange, hsim, hrun⟩ |
      ⟨nb, sym, d, bal, ai, e, hgb, hrt, hgate, hpu, hrange, hsim, hal, hrun⟩ |
      ⟨nb, sym, d, bal, ai, r, hgb, hrt, hgate, hpu, hrange, hsim, hal, hacc, hrun⟩ |
      ⟨nb, sym, d, bal, ai, r, sg, e, hgb, hrt, hgate, hpu, hrange, hsim, hal,
        hacc, hw, hrun⟩ |
      ⟨nb, sym, d, bal, ai, r, sg, hsh, e, hgb, hrt, hgate, hpu, hrange, hsim,
        hal, hacc, hw, hrcpt, hrun⟩ |
      ⟨nb, sym, d, bal, ai, r, sg, hsh, rc, hgb, hrt, hgate, hpu, hrange, hsim,
        hal, hacc, hw, hrcpt, hrun⟩ <;>
    rw [hrun]
  · exact ⟨⟨1, rfl⟩, by simp [traceGB, Step.kind],
      fun a ha => absurd ha (by simp [traceGB]),
      fun w hw => absurd hw (by simp [traceGB]),
      fun h hh => absurd hh (by simp [traceGB])⟩
  · exact ⟨⟨2, rfl⟩, by simp [traceRT, Step.kind],
      fun a ha => absurd ha (by simp [traceRT]),
      fun w hw => absurd hw (by simp [traceRT]),
      fun h hh => absurd hh (by simp [traceRT])⟩
  · exact ⟨⟨2, rfl⟩, by simp [traceRT, Step.kind],
      fun a ha => absurd ha (by simp [traceRT]),
      fun w hw => absurd hw (by simp [traceRT]),
      fun h hh => absurd hh (by simp [traceRT])⟩
  · exact ⟨⟨2, rfl⟩, by simp [traceRT, Step.kind],
      fun a ha => absurd ha (by simp [traceRT]),
      fun w hw => absurd hw (by simp [traceRT]),
      fun h hh => absurd hh (by simp [traceRT])⟩
  · exact ⟨⟨2, rfl⟩, by simp [traceRT, Step.kind],
      fun a ha => absurd ha (by simp [traceRT]),
      fun w hw => absurd hw (by simp [traceRT]),
      fun h hh => absurd hh (by simp [traceRT])⟩
  · exact ⟨⟨3, rfl⟩, by simp [traceSim, traceRT, Step.kind],
      fun a ha => absurd ha (by simp [traceSim, traceRT]),
      fun w hw => absurd hw (by simp [traceSim, traceRT]),
      fun h hh => absurd hh (by simp [traceSim, traceRT])⟩
  · exact ⟨⟨4, rfl⟩, by simp [traceAL, traceSim, traceRT, Step.kind],
      fun a ha => ⟨mkSimCall (accountAddress cfg) (tokenAddress cfg.chain)
        ai.toNat, by simp [traceAL, traceSim, traceRT], hsim⟩,
      fun w hw => absurd hw (by simp [traceAL, traceSim, traceRT]),
      fun h hh => absurd hh (by simp [traceAL, traceSim, traceRT])⟩
  · exact ⟨⟨4, rfl⟩, by simp [traceAL, traceSim, traceRT, Step.kind],
      fun a ha => ⟨mkSimCall (accountAddress cfg) (tokenAddress cfg.chain)
        ai.toNat, by simp [traceAL, traceSim, traceRT], hsim⟩,
      fun w hw => absurd hw (by simp [traceAL, traceSim, traceRT]),
      fun h hh => absurd hh (by simp [traceAL, traceSim, traceRT])⟩
  · refine ⟨⟨5, rfl⟩,
      by simp [traceSubmit, traceAL, traceSim, traceRT, Step.kind],
      ?_, ?_, ?_⟩
    · intro a ha
      exact ⟨mkSimCall (accountAddress cfg) (tokenAddress cfg.chain) ai.toNat,
        by simp [traceSubmit, traceAL, traceSim, traceRT], hsim⟩
    · intro w hw
      exact ⟨⟨mkSimCall (accountAddress cfg) (tokenAddress cfg.chain) ai.toNat,
          by simp [traceSubmit, traceAL, traceSim, traceRT], hsim⟩,
        mkAccessListCall (accountAddress cfg)
          (mkRequest (accountAddress cfg) (tokenAddress cfg.chain) ai.toNat), r,
        by simp [traceSubmit, traceAL, traceSim, traceRT], hal⟩
    · intro h hh
      exact absurd hh (by simp [traceSubmit, traceAL, traceSim, traceRT])
  · refine ⟨⟨6, rfl⟩,
      by simp [tracePoll, traceSubmit, traceAL, traceSim, traceRT, Step.kind],
      ?_, ?_, ?_⟩
    · intro a ha
      exact ⟨mkSimCall (accountAddress cfg) (tokenAddress cfg.chain) ai.toNat,
        by simp [tracePoll, traceSubmit, traceAL, traceSim, traceRT], hsim⟩
    · intro w hw
      exact ⟨⟨mkSimCall (accountAddress cfg) (tokenAddress cfg.chain) ai.toNat,
          by simp [tracePoll, traceSubmit, traceAL, traceSim, traceRT], hsim⟩,
        mkAccessListCall (accountAddress cfg)
          (mkRequest (accountAddress cfg) (tokenAddress cfg.chain) ai.toNat), r,
        by simp [tracePoll, traceSubmit, traceAL, traceSim, traceRT], hal⟩
    · intro h hh
      simp [tracePoll, traceSubmit, traceAL, traceSim, traceRT] at hh
      subst hh
      exact ⟨mkWriteCall (mkRequest (accountAddress cfg)
          (tokenAddress cfg.chain) ai.toNat) sg,
        by simp [tracePoll, traceSubmit, traceAL, traceSim, traceRT], hw⟩
  · refine ⟨⟨6, rfl⟩,
      by simp [tracePoll, traceSubmit, traceAL, traceSim, traceRT, Step.kind],
      ?_, ?_, ?_⟩
    · intro a ha
      exact ⟨mkSimCall (accountAddress cfg) (tokenAddress cfg.chain) ai.toNat,
        by simp [tracePoll, traceSubmit, traceAL, traceSim, traceRT], hsim⟩
    · intro w hw
      exact ⟨⟨mkSimCall (accountAddress cfg) (tokenAddress cfg.chain) ai.toNat,
          by simp [tracePoll, traceSubmit, traceAL, traceSim, traceRT], hsim⟩,
        mkAccessListCall (accountAddress cfg)
          (mkRequest (accountAddress cfg) (tokenAddress cfg.chain) ai.toNat), r,
        by simp [tracePoll, traceSubmit, traceAL, traceSim, traceRT], hal⟩
    · intro h hh
      simp [tracePoll, traceSubmit, traceAL, traceSim, traceRT] at hh
      subst hh
      exact ⟨mkWriteCall (mkRequest (accountAddress cfg)
          (tokenAddress cfg.chain) ai.toNat) sg,
        by simp [tracePoll, traceSubmit, traceAL, traceSim, traceRT], hw⟩

set_option maxRecDepth 400000 in
/-- Witness for `c5_strictly_sequential`: the concrete signing-mode run
against `okTransport` contains an access-list step and a submission step,
and the theorem yields the success of each step's predecessor there. -/
theorem c5_strictly_sequential_witness :
    Step.accessList (mkAccessListCall (accountAddress signingConfig)
        (mkRequest (accountAddress signingConfig)
          (tokenAddress ChainName.celo) 10000)) ∈
      (runMain signingConfig okTransport).1 ∧
    Step.submit (mkWriteCall (mkRequest (accountAddress signingConfig)
        (tokenAddress ChainName.celo) 10000)
        0x1111111111111111111111111111111111111111) ∈
      (runMain signingConfig okTransport).1 ∧
    (∃ s, Step.simulate s ∈ (runMain signingConfig okTransport).1 ∧
      okTransport.simulateContract s = .ok ()) ∧
    ((∃ s, Step.simulate s ∈ (runMain signingConfig okTransport).1 ∧
        okTransport.simulateContract s = .ok ()) ∧
      (∃ a result, Step.accessList a ∈ (runMain signingConfig okTransport).1 ∧
        okTransport.createAccessList a = .ok result)) :=
  ⟨by decide, by decide,
   (c5_strictly_sequential signingConfig okTransport).2.2.1
     (mkAccessListCall (accountAddress signingConfig)
       (mkRequest (accountAddress signingConfig)
         (tokenAddress ChainName.celo) 10000)) (by decide),
   (c5_strictly_sequential signingConfig okTransport).2.2.2.1
     (mkWriteCall (mkRequest (accountAddress signingConfig)
       (tokenAddress ChainName.celo) 10000)
       0x1111111111111111111111111111111111111111) (by decide)⟩

/-- **C4.** In read-only / fallback mode (no mnemonic, demo.ts lines 88-91)
no transaction is ever submitted: the run contains no submission and no
receipt-poll step, and when it completes normally it completes as the
read-only early return, whose last issued step is the access-list request
(demo.ts lines 190-195).  Conversely, a submission step can only occur
with a signing-capable account present. -/
theorem c4_read_only_never_submits (cfg : Config) (t : Transport) :
    (cfg.mnemonicAccount = none →
      (∀ w, Step.submit w ∉ (runMain cfg t).1) ∧
      (∀ h, Step.poll h ∉ (runMain cfg t).1) ∧
      (∀ o, (runMain cfg t).2 = .ok o → o = .readOnlyDone ∧
        (runMain cfg t).1.map Step.kind =
          [.getBalance, .readTokenInfo, .simulate, .accessList])) ∧
    (∀ w, Step.submit w ∈ (runMain cfg t).1 →
      cfg.mnemonicAccount.isSome = true) := by
  constructor
  · intro hnone
    rcases runMain_branches cfg t with
        ⟨e, hgb, hrun⟩ |
        ⟨nb, e, hgb, hrt, hrun⟩ |
        ⟨nb, sym, d, bal, hgb, hrt, hbal, hsm, hrun⟩ |
        ⟨nb, sym, d, bal, hgb, hrt, hgate, hpu, hrun⟩ |
        ⟨nb, sym, d, bal, ai, hgb, hrt, hgate, hpu, hrange, hrun⟩ |
        ⟨nb, sym, d, bal, ai, e, hgb, hrt, hgate, hpu, hrange, hsim, hrun⟩ |
        ⟨nb, sym, d, bal, ai, e, hgb, hrt, hgate, hpu, hrange, hsim, hal, hrun⟩ |
        ⟨nb, sym, d, bal, ai, r, hgb, hrt, hgate, hpu, hrange, hsim, hal, hacc,
          hrun⟩ |
        ⟨nb, sym, d, bal, ai, r, sg, e, hgb, hrt, hgate, hpu, hrange, hsim, hal,
          hacc, hw, hrun⟩ |
        ⟨nb, sym, d, bal, ai, r, sg, hsh, e, hgb, hrt, hgate, hpu, hrange, hsim,
          hal, hacc, hw, hrcpt, hrun⟩ |
        ⟨nb, sym, d, bal, ai, r, sg, hsh, rc, hgb, hrt, hgate, hpu, hrange, hsim,
          hal, hacc, hw, hrcpt, hrun⟩ <;>
      rw [hrun]
    · exact ⟨fun w hw => by simp [traceGB] at hw,
        fun h hh => by simp [traceGB] at hh, fun o ho => by simp at ho⟩
    · exact ⟨fun w hw => by simp [traceRT] at hw,
        fun h hh => by simp [traceRT] at hh, fun o ho => by simp at ho⟩
    · exact absurd hsm (by simp [hnone])
    · exact ⟨fun w hw => by simp [traceRT] at hw,
        fun h hh => by simp [traceRT] at hh, fun o ho => by simp at ho⟩
    · exact ⟨fun w hw => by simp [traceRT] at hw,
        fun h hh => by simp [traceRT] at hh, fun o ho => by simp at ho⟩
    · exact ⟨fun w hw => by simp [traceSim, traceRT] at hw,
        fun h hh => by simp [traceSim, traceRT] at hh, fun o ho => by simp at ho⟩
    · exact ⟨fun w hw => by simp [traceAL, traceSim, traceRT] at hw,
        fun h hh => by simp [traceAL, traceSim, traceRT] at hh,
        fun o ho => by simp at ho⟩
    · refine ⟨fun w hw => by simp [traceAL, traceSim, traceRT] at hw,
        fun h hh => by simp [traceAL, traceSim, traceRT] at hh,
        fun o ho => ?_⟩
      refine ⟨?_, by simp [traceAL, traceSim, traceRT, Step.kind]⟩
      injection ho with ho
      exact ho.symm
    · exact absurd hacc (by simp [hnone])
    · exact absurd hacc (by simp [hnone])
    · exact absurd hacc (by simp [hnone])
  · intro w hw
    rcases runMain_branches cfg t with
        ⟨e, hgb, hrun⟩ |
        ⟨nb, e, hgb, hrt, hrun⟩ |
        ⟨nb, sym, d, bal, hgb, hrt, hbal, hsm, hrun⟩ |
        ⟨nb, sym, d, bal, hgb, hrt, hgate, hpu, hrun⟩ |
        ⟨nb, sym, d, bal, ai, hgb, hrt, hgate, hpu, hrange, hrun⟩ |
        ⟨nb, sym, d, bal, ai, e, hgb, hrt, hgate, hpu, hrange, hsim, hrun⟩ |
        ⟨nb, sym, d, bal, ai, e, hgb, hrt, hgate, hpu, hrange, hsim, hal, hrun⟩ |
        ⟨nb, sym, d, bal, ai, r, hgb, hrt, hgate, hpu, hrange, hsim, hal, hacc,
          hrun⟩ |
        ⟨nb, sym, d, bal, ai, r, sg, e, hgb, hrt, hgate, hpu, hrange, hsim, hal,
          hacc, hw2, hrun⟩ |
        ⟨nb, sym, d, bal, ai, r, sg, hsh, e, hgb, hrt, hgate, hpu, hrange, hsim,
          hal, hacc, hw2, hrcpt, hrun⟩ |
        ⟨nb, sym, d, bal, ai, r, sg, hsh, rc, hgb, hrt, hgate, hpu, hrange, hsim,
          hal, hacc, hw2, hrcpt, hrun⟩ <;>
      rw [hrun] at hw
    · simp [traceGB] at hw
    · simp [traceRT] at hw
    · simp [traceRT] at hw
    · simp [traceRT] at hw
    · simp [traceRT] at hw
    · simp [traceSim, traceRT] at hw
    · simp [traceAL, traceSim, traceRT] at hw
    · simp [traceAL, traceSim, traceRT] at hw
    · simp [hacc]
    · simp [hacc]
    · simp [hacc]

set_option maxRecDepth 400000 in
/-- Witness for `c4_read_only_never_submits`: the fallback-mode conclusion
at the concrete read-only run, and the signing-requirement conclusion at
the concrete signing-mode run (which does submit). -/
theorem c4_read_only_never_submits_witness :
    ((∀ w, Step.submit w ∉ (runMain fallbackConfig okTransport).1) ∧
     (∀ h, Step.poll h ∉ (runMain fallbackConfig okTransport).1) ∧
     (∀ o, (runMain fallbackConfig okTransport).2 = .ok o →
       o = .readOnlyDone ∧
       (runMain fallbackConfig okTransport).1.map Step.kind =
         [.getBalance, .readTokenInfo, .simulate, .accessList])) ∧
    signingConfig.mnemonicAccount.isSome = true :=
  ⟨(c4_read_only_never_submits fallbackConfig okTransport).1 rfl,
   (c4_read_only_never_submits signingConfig okTransport).2
     (mkWriteCall (mkRequest (accountAddress signingConfig)
       (tokenAddress ChainName.celo) 10000)
       0x1111111111111111111111111111111111111111) (by decide)⟩

/-- **C9.** The zero-balance gate (demo.ts lines 145-148): with a
signing-capable account and token balance ≤ 0 the run aborts with
`Please add <tokenSymbol> to your account` before any simulation,
access-list request, or submission; in read-only mode the same balance
does not abort, and the simulation and access-list steps are still
issued. -/
theorem c9_zero_balance_gate (cfg : Config) (t : Transport) :
    (∀ nb0 sym0 d0 bal0,
      cfg.mnemonicAccount.isSome = true →
      t.getBalance (accountAddress cfg) = .ok nb0 →
      readTokenInfo t (tokenAddress cfg.chain) (accountAddress cfg) =
        .ok (sym0, d0, bal0) →
      bal0 ≤ 0 →
      (runMain cfg t).2 =
        .error (.thrown ("Please add " ++ sym0 ++ " to your account")) ∧
      (∀ s, Step.simulate s ∉ (runMain cfg t).1) ∧
      (∀ a, Step.accessList a ∉ (runMain cfg t).1) ∧
      (∀ w, Step.submit w ∉ (runMain cfg t).1)) ∧
    (∀ nb0 sym0 d0 bal0 ai0,
      cfg.mnemonicAccount = none →
      t.getBalance (accountAddress cfg) = .ok nb0 →
      readTokenInfo t (tokenAddress cfg.chain) (accountAddress cfg) =
        .ok (sym0, d0, bal0) →
      bal0 ≤ 0 →
      parseUnits tokenSendAmountString d0 = some ai0 →
      ¬(ai0 < 0 ∨ (2 : Int) ^ 256 ≤ ai0) →
      t.simulateContract (mkSimCall (accountAddress cfg)
        (tokenAddress cfg.chain) ai0.toNat) = .ok () →
      (∃ s, Step.simulate s ∈ (runMain cfg t).1) ∧
      (∃ a, Step.accessList a ∈ (runMain cfg t).1)) := by
  constructor
  · intro nb0 sym0 d0 bal0 hsome hGB hRT hbal
    rcases runMain_branches cfg t with
        ⟨e, hgb, hrun⟩ |
        ⟨nb, e, hgb, hrt, hrun⟩ |
        ⟨nb, sym, d, bal, hgb, hrt, hbal2, hsm, hrun⟩ |
        ⟨nb, sym, d, bal, hgb, hrt, hgate, hpu, hrun⟩ |
        ⟨nb, sym, d, bal, ai, hgb, hrt, hgate, hpu, hrange, hrun⟩ |
        ⟨nb, sym, d, bal, ai, e, hgb, hrt, hgate, hpu, hrange, hsim, hrun⟩ |
        ⟨nb, sym, d, bal, ai, e, hgb, hrt, hgate, hpu, hrange, hsim, hal, hrun⟩ |
        ⟨nb, sym, d, bal, ai, r, hgb, hrt, hgate, hpu, hrange, hsim, hal, hacc,
          hrun⟩ |
        ⟨nb, sym, d, bal, ai, r, sg, e, hgb, hrt, hgate, hpu, hrange, hsim, hal,
          hacc, hw, hrun⟩ |
        ⟨nb, sym, d, bal, ai, r, sg, hsh, e, hgb, hrt, hgate, hpu, hrange, hsim,
          hal, hacc, hw, hrcpt, hrun⟩ |
        ⟨nb, sym, d, bal, ai, r, sg, hsh, rc, hgb, hrt, hgate, hpu, hrange, hsim,
          hal, hacc, hw, hrcpt, hrun⟩ <;>
      first
        | exact Except.noConfusion (hgb ▸ hGB)
        | exact Except.noConfusion (hrt ▸ hRT)
        | (rw [hrt] at hRT
           simp only [Except.ok.injEq, Prod.mk.injEq] at hRT
           obtain ⟨rfl, rfl, rfl⟩ := hRT
           exact absurd ⟨hbal, hsome⟩ hgate)
        | (rw [hrt] at hRT
           simp only [Except.ok.injEq, Prod.mk.injEq] at hRT
           obtain ⟨rfl, rfl, rfl⟩ := hRT
           rw [hrun]
           exact ⟨rfl, fun s hs => by simp [traceRT] at hs,
             fun a ha => by simp [traceRT] at ha,
             fun w hw => by simp [traceRT] at hw⟩)
  · intro nb0 sym0 d0 bal0 ai0 hnone hGB hRT hbal hPU hRANGE hSIM
    rcases runMain_branches cfg t with
        ⟨e, hgb, hrun⟩ |
        ⟨nb, e, hgb, hrt, hrun⟩ |
        ⟨nb, sym, d, bal, hgb, hrt, hbal2, hsm, hrun⟩ |
        ⟨nb, sym, d, bal, hgb, hrt, hgate, hpu, hrun⟩ |
        ⟨nb, sym, d, bal, ai, hgb, hrt, hgate, hpu, hrange, hrun⟩ |
        ⟨nb, sym, d, bal, ai, e, hgb, hrt, hgate, hpu, hrange, hsim, hrun⟩ |
        ⟨nb, sym, d, bal, ai, e, hgb, hrt, hgate, hpu, hrange, hsim, hal, hrun⟩ |
        ⟨nb, sym, d, bal, ai, r, hgb, hrt, hgate, hpu, hrange, hsim, hal, hacc,
          hrun⟩ |
        ⟨nb, sym, d, bal, ai, r, sg, e, hgb, hrt, hgate, hpu, hrange, hsim, hal,
          hacc, hw, hrun⟩ |
        ⟨nb, sym, d, bal, ai, r, sg, hsh, e, hgb, hrt, hgate, hpu, hrange, hsim,
          hal, hacc, hw, hrcpt, hrun⟩ |
        ⟨nb, sym, d, bal, ai, r, sg, hsh, rc, hgb, hrt, hgate, hpu, hrange, hsim,
          hal, hacc, hw, hrcpt, hrun⟩ <;>
      first
        | exact Except.noConfusion (hgb ▸ hGB)
        | exact Except.noConfusion (hrt ▸ hRT)
        | exact absurd hsm (by simp [hnone])
        | exact Option.noConfusion (hnone ▸ hacc)
        | (rw [hrt] at hRT
           simp only [Except.ok.injEq, Prod.mk.injEq] at hRT
           obtain ⟨rfl, rfl, rfl⟩ := hRT
           first
             | exact Option.noConfusion (hpu ▸ hPU)
             | (rw [hpu] at hPU
                simp only [Option.some.injEq] at hPU
                obtain rfl := hPU
                first
                  | exact absurd hrange hRANGE
                  | exact Except.noConfusion (hsim ▸ hSIM)
                  | (rw [hrun]
                     exact ⟨⟨mkSimCall (accountAddress cfg)
                         (tokenAddress cfg.chain) ai.toNat,
                         by simp [traceAL, traceSim, traceRT]⟩,
                       ⟨mkAccessListCall (accountAddress cfg)
                           (mkRequest (accountAddress cfg)
                             (tokenAddress cfg.chain) ai.toNat),
                         by simp [traceAL, traceSim, traceRT]⟩⟩)))

set_option maxRecDepth 400000 in
/-- Witness for `c9_zero_balance_gate`: both conclusions at concrete runs
against `zeroBalanceTransport` — abort in signing mode, proceed to
simulate and access-list in read-only mode. -/
theorem c9_zero_balance_gate_witness :
    ((runMain signingConfig zeroBalanceTransport).2 =
        .error (.thrown ("Please add " ++ "USDC" ++ " to your account")) ∧
      (∀ s, Step.simulate s ∉ (runMain signingConfig zeroBalanceTransport).1) ∧
      (∀ a, Step.accessList a ∉
        (runMain signingConfig zeroBalanceTransport).1) ∧
      (∀ w, Step.submit w ∉ (runMain signingConfig zeroBalanceTransport).1)) ∧
    ((∃ s, Step.simulate s ∈ (runMain fallbackConfig zeroBalanceTransport).1) ∧
      (∃ a, Step.accessList a ∈
        (runMain fallbackConfig zeroBalanceTransport).1)) :=
  ⟨(c9_zero_balance_gate signingConfig zeroBalanceTransport).1
      100000000000000000 "USDC" 6 0 (by decide) rfl rfl (by decide),
   (c9_zero_balance_gate fallbackConfig zeroBalanceTransport).2
      100000000000000000 "USDC" 6 0 10000 rfl rfl rfl (by decide) (by decide)
      (by decide) rfl⟩

set_option maxRecDepth 400000 in
/-- **C1 counterexample.** In the concrete signing-mode run against the
Forno-style provider (which rejects `eth_createAccessList` with the
documented error), the access-list request is made and fails — and the
program does not treat this as a recoverable miss: there is no try/catch
in demo.ts, so the rejection aborts the run with that very error instead
of falling back to proceeding without an access list; no transaction is
submitted, and the run ends at the access-list step. -/
theorem c1_access_list_failure_aborts_counterexample :
    Step.accessList (mkAccessListCall (accountAddress signingConfig)
        (mkRequest (accountAddress signingConfig)
          (tokenAddress ChainName.celo) 10000)) ∈
      (runMain signingConfig fornoTransport).1 ∧
    fornoTransport.createAccessList (mkAccessListCall
        (accountAddress signingConfig)
        (mkRequest (accountAddress signingConfig)
          (tokenAddress ChainName.celo) 10000)) =
      .error { code := -32601, message := "rpc method is not whitelisted" } ∧
    (runMain signingConfig fornoTransport).2 =
      .error (.rpc ⟨-32601, "rpc method is not whitelisted"⟩) ∧
    (runMain signingConfig fornoTransport).1.map Step.kind =
      [.getBalance, .readTokenInfo, .simulate, .accessList] := by
  exact ⟨by decide, by decide, by decide, by decide⟩

/-- **C1 (amended).** When the access-list request fails, the script does
not recover: the rejected promise propagates out of the uncaught `await`
(demo.ts lines 177-186 have no try/catch), the run aborts with exactly
that RPC error as its outcome, and no submission or receipt poll is ever
issued.  The failure cause is preserved in the surfaced error, but there
is no fallback to proceeding without an access list. -/
theorem c1_amended_access_list_failure_aborts (cfg : Config) (t : Transport)
    (c : AccessListCall) (e : RpcError)
    (hmem : Step.accessList c ∈ (runMain cfg t).1)
    (hfail : t.createAccessList c = .error e) :
    (runMain cfg t).2 = .error (.rpc e) ∧
    (∀ w, Step.submit w ∉ (runMain cfg t).1) ∧
    (∀ h, Step.poll h ∉ (runMain cfg t).1) := by
  rcases runMain_branches cfg t with
      ⟨e2, hgb, hrun⟩ |
      ⟨nb, e2, hgb, hrt, hrun⟩ |
      ⟨nb, sym, d, bal, hgb, hrt, hbal2, hsm, hrun⟩ |
      ⟨nb, sym, d, bal, hgb, hrt, hgate, hpu, hrun⟩ |
      ⟨nb, sym, d, bal, ai, hgb, hrt, hgate, hpu, hrange, hrun⟩ |
      ⟨nb, sym, d, bal, ai, e2, hgb, hrt, hgate, hpu, hrange, hsim, hrun⟩ |
      ⟨nb, sym, d, bal, ai, e2, hgb, hrt, hgate, hpu, hrange, hsim, hal, hrun⟩ |
      ⟨nb, sym, d, bal, ai, r, hgb, hrt, hgate, hpu, hrange, hsim, hal, hacc,
        hrun⟩ |
      ⟨nb, sym, d, bal, ai, r, sg, e2, hgb, hrt, hgate, hpu, hrange, hsim, hal,
        hacc, hw, hrun⟩ |
      ⟨nb, sym, d, bal, ai, r, sg, hsh, e2, hgb, hrt, hgate, hpu, hrange, hsim,
        hal, hacc, hw, hrcpt, hrun⟩ |
      ⟨nb, sym, d, bal, ai, r, sg, hsh, rc, hgb, hrt, hgate, hpu, hrange, hsim,
        hal, hacc, hw, hrcpt, hrun⟩ <;>
    rw [hrun] at hmem ⊢
  · simp [traceGB] at hmem
  · simp [traceRT] at hmem
  · simp [traceRT] at hmem
  · simp [traceRT] at hmem
  · simp [traceRT] at hmem
  · simp [traceSim, traceRT] at hmem
  · simp [traceAL, traceSim, traceRT] at hmem
    subst hmem
    rw [hal] at hfail
    simp only [Except.error.injEq] at hfail
    subst hfail
    exact ⟨rfl, fun w hw => by simp [traceAL, traceSim, traceRT] at hw,
      fun h hh => by simp [traceAL, traceSim, traceRT] at hh⟩
  · simp [traceAL, traceSim, traceRT] at hmem
    subst hmem
    rw [hal] at hfail
    exact Except.noConfusion hfail
  · simp [traceSubmit, traceAL, traceSim, traceRT] at hmem
    subst hmem
    rw [hal] at hfail
    exact Except.noConfusion hfail
  · simp [tracePoll, traceSubmit, traceAL, traceSim, traceRT] at hmem
    subst hmem
    rw [hal] at hfail
    exact Except.noConfusion hfail
  · simp [tracePoll, traceSubmit, traceAL, traceSim, traceRT] at hmem
    subst hmem
    rw [hal] at hfail
    exact Except.noConfusion hfail

set_option maxRecDepth 400000 in
/-- Witness for `c1_amended_access_list_failure_aborts` at the concrete
Forno-style run. -/
theorem c1_amended_access_list_failure_aborts_witness :
    (runMain signingConfig fornoTransport).2 =
      .error (.rpc ⟨-32601, "rpc method is not whitelisted"⟩) ∧
    (∀ w, Step.submit w ∉ (runMain signingConfig fornoTransport).1) ∧
    (∀ h, Step.poll h ∉ (runMain signingConfig fornoTransport).1) :=
  c1_amended_access_list_failure_aborts signingConfig fornoTransport
    (mkAccessListCall (accountAddress signingConfig)
      (mkRequest (accountAddress signingConfig)
        (tokenAddress ChainName.celo) 10000))
    { code := -32601, message := "rpc method is not whitelisted" }
    (by decide) rfl

/-- **C10.** Every access-list request the script issues is consistent
with the simulated request: its call data is the ABI encoding of the same
`transfer` function and arguments as the simulate step that precedes it in
the trace, its `to` address is the simulated request's contract address
(the token), its `value` is 0, and the encoded transfer is a self-transfer
(recipient = sender account address). -/
theorem c10_access_list_request_consistency (cfg : Config) (t : Transport)
    (c : AccessListCall) (hmem : Step.accessList c ∈ (runMain cfg t).1) :
    ∃ amount,
      c = mkAccessListCall (accountAddress cfg)
        (mkRequest (accountAddress cfg) (tokenAddress cfg.chain) amount) ∧
      Step.simulate (mkSimCall (accountAddress cfg) (tokenAddress cfg.chain)
        amount) ∈ (runMain cfg t).1 ∧
      c.data = encodeTransferData (accountAddress cfg) amount ∧
      (mkSimCall (accountAddress cfg) (tokenAddress cfg.chain) amount).data =
        encodeTransferData (accountAddress cfg) amount ∧
      c.toAddr = tokenAddress cfg.chain ∧
      c.value = 0 ∧
      (mkRequest (accountAddress cfg) (tokenAddress cfg.chain)
        amount).recipient = accountAddress cfg := by
  rcases runMain_branches cfg t with
      ⟨e2, hgb, hrun⟩ |
      ⟨nb, e2, hgb, hrt, hrun⟩ |
      ⟨nb, sym, d, bal, hgb, hrt, hbal2, hsm, hrun⟩ |
      ⟨nb, sym, d, bal, hgb, hrt, hgate, hpu, hrun⟩ |
      ⟨nb, sym, d, bal, ai, hgb, hrt, hgate, hpu, hrange, hrun⟩ |
      ⟨nb, sym, d, bal, ai, e2, hgb, hrt, hgate, hpu, hrange, hsim, hrun⟩ |
      ⟨nb, sym, d, bal, ai, e2, hgb, hrt, hgate, hpu, hrange, hsim, hal, hrun⟩ |
      ⟨nb, sym, d, bal, ai, r, hgb, hrt, hgate, hpu, hrange, hsim, hal, hacc,
        hrun⟩ |
      ⟨nb, sym, d, bal, ai, r, sg, e2, hgb, hrt, hgate, hpu, hrange, hsim, hal,
        hacc, hw, hrun⟩ |
      ⟨nb, sym, d, bal, ai, r, sg, hsh, e2, hgb, hrt, hgate, hpu, hrange, hsim,
        hal, hacc, hw, hrcpt, hrun⟩ |
      ⟨nb, sym, d, bal, ai, r, sg, hsh, rc, hgb, hrt, hgate, hpu, hrange, hsim,
        hal, hacc, hw, hrcpt, hrun⟩ <;>
    rw [hrun] at hmem ⊢
  · simp [traceGB] at hmem
  · simp [traceRT] at hmem
  · simp [traceRT] at hmem
  · simp [traceRT] at hmem
  · simp [traceRT] at hmem
  · simp [traceSim, traceRT] at hmem
  · simp [traceAL, traceSim, traceRT] at hmem
    subst hmem
    exact ⟨ai.toNat, rfl, by simp [traceAL, traceSim, traceRT], rfl, rfl,
      rfl, rfl, rfl⟩
  · simp [traceAL, traceSim, traceRT] at hmem
    subst hmem
    exact ⟨ai.toNat, rfl, by simp [traceAL, traceSim, traceRT], rfl, rfl,
      rfl, rfl, rfl⟩
  · simp [traceSubmit, traceAL, traceSim, traceRT] at hmem
    subst hmem
    exact ⟨ai.toNat, rfl, by simp [traceSubmit, traceAL, traceSim, traceRT],
      rfl, rfl, rfl, rfl, rfl⟩
  · simp [tracePoll, traceSubmit, traceAL, traceSim, traceRT] at hmem
    subst hmem
    exact ⟨ai.toNat, rfl,
      by simp [tracePoll, traceSubmit, traceAL, traceSim, traceRT], rfl, rfl,
      rfl, rfl, rfl⟩
  · simp [tracePoll, traceSubmit, traceAL, traceSim, traceRT] at hmem
    subst hmem
    exact ⟨ai.toNat, rfl,
      by simp [tracePoll, traceSubmit, traceAL, traceSim, traceRT], rfl, rfl,
      rfl, rfl, rfl⟩

set_option maxRecDepth 400000 in
/-- Witness for `c10_access_list_request_consistency` at the concrete
read-only run against `okTransport`. -/
theorem c10_access_list_request_consistency_witness :
    ∃ amount,
      mkAccessListCall (accountAddress fallbackConfig)
          (mkRequest (accountAddress fallbackConfig)
            (tokenAddress ChainName.base) 10000) =
        mkAccessListCall (accountAddress fallbackConfig)
          (mkRequest (accountAddress fallbackConfig)
            (tokenAddress fallbackConfig.chain) amount) ∧
      Step.simulate (mkSimCall (accountAddress fallbackConfig)
        (tokenAddress fallbackConfig.chain) amount) ∈
        (runMain fallbackConfig okTransport).1 ∧
      (mkAccessListCall (accountAddress fallbackConfig)
          (mkRequest (accountAddress fallbackConfig)
            (tokenAddress ChainName.base) 10000)).data =
        encodeTransferData (accountAddress fallbackConfig) amount ∧
      (mkSimCall (accountAddress fallbackConfig)
          (tokenAddress fallbackConfig.chain) amount).data =
        encodeTransferData (accountAddress fallbackConfig) amount ∧
      (mkAccessListCall (accountAddress fallbackConfig)
          (mkRequest (accountAddress fallbackConfig)
            (tokenAddress ChainName.base) 10000)).toAddr =
        tokenAddress fallbackConfig.chain ∧
      (mkAccessListCall (accountAddress fallbackConfig)
          (mkRequest (accountAddress fallbackConfig)
            (tokenAddress ChainName.base) 10000)).value = 0 ∧
      (mkRequest (accountAddress fallbackConfig)
          (tokenAddress fallbackConfig.chain) amount).recipient =
        accountAddress fallbackConfig :=
  c10_access_list_request_consistency fallbackConfig okTransport
    (mkAccessListCall (accountAddress fallbackConfig)
      (mkRequest (accountAddress fallbackConfig)
        (tokenAddress ChainName.base) 10000))
    (by decide)

/-- Appending `k` zero digits multiplies the value of a decimal digit
string by `10^k`. -/
theorem digitsVal_append_zeros (s : List Char) (k : Nat) :
    digitsVal (s ++ List.replicate k '0') = digitsVal s * 10 ^ k := by
  have aux : ∀ (n : Nat) (acc : Nat),
      List.foldl (fun acc c => acc * 10 + (c.toNat - '0'.toNat)) acc
        (List.replicate n '0') = acc * 10 ^ n := by
    intro n
    induction n with
    | zero => intro acc; simp
    | succ m ih =>
      intro acc
      rw [List.replicate_succ, List.foldl_cons, ih]
      show (acc * 10 + ('0'.toNat - '0'.toNat)) * 10 ^ m = acc * 10 ^ (m + 1)
      simp [pow_succ]
      ring
  rw [digitsVal, List.foldl_append]
  rw [aux]
  rfl

/-- For any `d ≥ 2` token decimals, viem `parseUnits "0.01" d` is exactly
`0.01 · 10^d = 10^(d-2)`: the fraction `01` is padded with `d - 2` zeros
and read as an integer. -/
theorem parseUnits_001 (d : Nat) (hd : 2 ≤ d) :
    parseUnits "0.01" d = some ((10 : Int) ^ (d - 2)) := by
  obtain ⟨k, rfl⟩ : ∃ k, d = k + 2 := ⟨d - 2, by omega⟩
  rw [parseUnits, if_pos (by decide)]
  rw [show "0.01".toList = ['0', '.', '0', '1'] from rfl]
  unfold parseUnitsCore
  simp only [show (['0', '.', '0', '1'].takeWhile fun c => c ≠ '.') = ['0']
      from by decide,
    show (['0', '.', '0', '1'].dropWhile fun c => c ≠ '.') = ['.', '0', '1']
      from by decide,
    show trimTrailingZeros ['0', '1'] = ['0', '1'] from by decide]
  simp only [if_neg (show ¬(['0'] : List Char).head? = some '-' from by
    decide)]
  rw [if_neg (show ¬(k + 2 = 0) from by omega)]
  rw [if_neg (show ¬(['0', '1'] : List Char).length > k + 2 from by simp)]
  simp only [padEndZeros, List.length_cons, List.length_nil]
  rw [show k + 2 - (0 + 1 + 1) = k from by omega]
  rw [show (['0'] ++ (['0', '1'] ++ List.replicate k '0')) =
    (['0', '0', '1'] ++ List.replicate k '0') from by simp]
  rw [digitsVal_append_zeros]
  rw [show digitsVal ['0', '0', '1'] = 1 from by decide]
  push_cast
  simp

/-- A provider on which the dry run reverts (e.g. insufficient token
balance): `simulateContract` rejects with a revert error. -/
def revertTransport : Transport :=
  { okTransport with
    simulateContract := fun _ =>
      .error ⟨3, "execution reverted: ERC20: transfer amount exceeds balance"⟩ }

set_option maxRecDepth 400000 in
/-- **C6.** The simulated transfer encodes an ERC-20
`transfer(address,uint256)` call whose integer argument is the decimal
amount scaled by `10^tokenDecimals` (for the script's `0.01`:
`10^(d-2)`, so `10000` at 6 decimals); the encoded call data is the
4-byte selector followed by the padded recipient and amount; against a
mock that accepts the transfer the dry run succeeds and the run proceeds
with the ready-to-send request (whose data reaches the access-list call),
while a reverting dry run aborts the run before any request is returned. -/
theorem c6_simulate_transfer_encoding :
    (∀ d, 2 ≤ d →
      parseUnits tokenSendAmountString d = some ((10 : Int) ^ (d - 2))) ∧
    parseUnits tokenSendAmountString 6 = some 10000 ∧
    (∀ account token amount, (mkSimCall account token amount).data =
      transferSelector ++ beBytes 32 account ++ beBytes 32 amount) ∧
    (Step.simulate (mkSimCall (accountAddress fallbackConfig)
        (tokenAddress ChainName.base) 10000) ∈
        (runMain fallbackConfig okTransport).1 ∧
      (runMain fallbackConfig okTransport).2 = .ok .readOnlyDone) ∧
    ((runMain fallbackConfig revertTransport).2 =
        .error (.rpc ⟨3,
          "execution reverted: ERC20: transfer amount exceeds balance"⟩) ∧
      (runMain fallbackConfig revertTransport).1.map Step.kind =
        [.getBalance, .readTokenInfo, .simulate]) :=
  ⟨fun d hd => parseUnits_001 d hd, by decide, fun _ _ _ => rfl,
   ⟨by decide, by decide⟩, ⟨by decide, by decide⟩⟩

set_option maxRecDepth 400000 in
/-- Witness for `c6_simulate_transfer_encoding`'s general scaling clause
at the script's USDC decimals `d = 6`: `0.01 · 10^6 = 10000`. -/
theorem c6_simulate_transfer_encoding_witness :
    2 ≤ 6 ∧ parseUnits tokenSendAmountString 6 = some ((10 : Int) ^ (6 - 2)) :=
  ⟨by decide, c6_simulate_transfer_encoding.1 6 (by decide)⟩
